import Mathlib

/-!
PTEF core: a shallow embedding of `src/python/src/ptef/grammar.py` and
`src/python/src/ptef/combinatorics.py`.

Python `int` is modelled as `Int` at the public entry points; the internal
helpers of `grammar.py` are only ever reached with non-negative arguments and
are modelled over `Nat`.  A Python function that can raise `ValueError` is
modelled as returning `Except Err _`; the constructors of `Err` record the
distinct raise sites.
-/

namespace PTEF

set_option maxRecDepth 10000

/-- Raise sites of `ValueError` in the embedded modules. -/
inductive Err where
  /-- Raised by `text_number` when n is negative (spec name: InvalidArgument). -/
  | invalidArgument
  /-- Raised by `text_number` and `count_tokens_up_to_N` when the policy is not R1
  (spec name: UnsupportedPolicy). -/
  | unsupportedPolicy
  /-- Raised by `_generate_tokens` when the number is too large for the defined
  bands (spec name: OutOfRange). -/
  | outOfRange
  /-- Raised by Python tuple-unpacking in `_count_blocks` when the unpacked dict
  does not have exactly two keys. -/
  | unpackMismatch
  deriving DecidableEq

instance {ε α : Type} [DecidableEq ε] [DecidableEq α] : DecidableEq (Except ε α) :=
  fun a b =>
    match a, b with
    | .ok x, .ok y =>
        if h : x = y then isTrue (by rw [h]) else isFalse (by intro hc; cases hc; exact h rfl)
    | .error e, .error f =>
        if h : e = f then isTrue (by rw [h]) else isFalse (by intro hc; cases hc; exact h rfl)
    | .ok _, .error _ => isFalse (by intro hc; cases hc)
    | .error _, .ok _ => isFalse (by intro hc; cases hc)

/-- Unit-word table of `_units_tokens` (index 0 is an empty-string sentinel). -/
def unitsWords : List String :=
  ["", "um", "dois", "três", "quatro", "cinco", "seis", "sete", "oito", "nove",
   "dez", "onze", "doze", "treze", "quatorze", "quinze", "dezesseis",
   "dezessete", "dezoito", "dezenove"]

/-- Embeds `_units_tokens`: `[units[n]] if units[n] else []`.  The Python list
index is only ever taken at 0 ≤ n ≤ 19; `getD` totalises it harmlessly. -/
def units_tokens (n : Nat) : List String :=
  let w := unitsWords.getD n ""
  if w = "" then [] else [w]

/-- Tens-word table of `_tens_tokens`. -/
def tensWords : List String :=
  ["", "", "vinte", "trinta", "quarenta", "cinquenta",
   "sessenta", "setenta", "oitenta", "noventa"]

/-- Embeds `_tens_tokens` (called with 20 ≤ n ≤ 99, so the units digit, when
positive, indexes a singleton `_units_tokens` result; `headD` totalises the
Python `[0]` index). -/
def tens_tokens (n : Nat) : List String :=
  let tensDigit := n / 10
  let unitsDigit := n % 10
  let tokens := [tensWords.getD tensDigit ""]
  if unitsDigit > 0 then
    tokens ++ ["e", (units_tokens unitsDigit).headD ""]
  else
    tokens

/-- Hundreds-word table of `_hundreds_tokens`. -/
def hundredsWords : List String :=
  ["", "", "duzentos", "trezentos", "quatrocentos",
   "quinhentos", "seiscentos", "setecentos",
   "oitocentos", "novecentos"]

/-- Embeds `_hundreds_tokens` (called with 100 ≤ n ≤ 999). -/
def hundreds_tokens (n : Nat) : List String :=
  let hundredsDigit := n / 100
  let remainder := n % 100
  if n = 100 then ["cem"]
  else
    let tokens :=
      if hundredsDigit = 1 then ["cento"]
      else [hundredsWords.getD hundredsDigit ""]
    if remainder > 0 then
      if remainder < 20 then tokens ++ "e" :: units_tokens remainder
      else
        let tensTk := tens_tokens remainder
        if tensTk = [] then tokens else tokens ++ "e" :: tensTk
    else
      tokens

/-- Shared remainder logic of `_thousands_tokens`, `_millions_tokens` and
`_billions_tokens`: the three Python functions end with the same lines
appending the connective "e" and the remainder's tokens when the
remainder is positive (the branch for remainder ≥ 100 first checks that the
remainder's token list is non-empty). -/
def append_remainder (gen : Nat → Option (List String))
    (tokens : List String) (remainder : Nat) : Option (List String) :=
  if remainder > 0 then
    if remainder < 100 then
      (gen remainder).map fun r => tokens ++ "e" :: r
    else
      (gen remainder).map fun r => if r = [] then tokens else tokens ++ "e" :: r
  else
    some tokens

/-- Embeds `_thousands_tokens` (called with 1000 ≤ n ≤ 999999; the Python
locals `thousands = n // 1000` and `remainder = n % 1000` are inlined);
`gen` stands for the recursive `_generate_tokens`. -/
def thousands_tokens (gen : Nat → Option (List String)) (n : Nat) :
    Option (List String) :=
  if n / 1000 = 1 then
    append_remainder gen ["mil"] (n % 1000)
  else
    (gen (n / 1000)).bind fun tq => append_remainder gen (tq ++ ["mil"]) (n % 1000)

/-- Embeds `_millions_tokens` (called with 1000000 ≤ n ≤ 999999999). -/
def millions_tokens (gen : Nat → Option (List String)) (n : Nat) :
    Option (List String) :=
  if n / 1000000 = 1 then
    append_remainder gen ["um", "milhão"] (n % 1000000)
  else
    (gen (n / 1000000)).bind fun tm => append_remainder gen (tm ++ ["milhões"]) (n % 1000000)

/-- Embeds `_billions_tokens` (called with 1000000000 ≤ n ≤ 999999999999). -/
def billions_tokens (gen : Nat → Option (List String)) (n : Nat) :
    Option (List String) :=
  if n / 1000000000 = 1 then
    append_remainder gen ["um", "bilhão"] (n % 1000000000)
  else
    (gen (n / 1000000000)).bind fun tb => append_remainder gen (tb ++ ["bilhões"]) (n % 1000000000)

/-- Embeds `_generate_tokens`.  The Python function recurses on strictly
smaller arguments with nesting depth at most four, so a fuel argument makes
the recursion structural.  The result `none` models an uncaught `ValueError`
(the final `raise` for numbers beyond the billions band); fuel exhaustion
also yields `none` but is unreachable from fuel 4 for any argument within
the supported bands (see the `generate_tokens_stable_*` and totality
lemmas below). -/
def generate_tokens : Nat → Nat → Option (List String)
  | 0, _ => none
  | fuel + 1, n =>
    if n = 0 then some []
    else if 1 ≤ n ∧ n ≤ 19 then some (units_tokens n)
    else if 20 ≤ n ∧ n ≤ 99 then some (tens_tokens n)
    else if 100 ≤ n ∧ n ≤ 199 then some (hundreds_tokens n)
    else if 200 ≤ n ∧ n ≤ 999 then some (hundreds_tokens n)
    else if 1000 ≤ n ∧ n ≤ 999999 then thousands_tokens (generate_tokens fuel) n
    else if 1000000 ≤ n ∧ n ≤ 999999999 then millions_tokens (generate_tokens fuel) n
    else if 1000000000 ≤ n ∧ n ≤ 999999999999 then billions_tokens (generate_tokens fuel) n
    else none

/-- Embeds `text_number` (the spec's `verbalize`). -/
def text_number (n : Int) (policy : String) : Except Err (List String) :=
  if n < 0 then .error .invalidArgument
  else if policy ≠ "R1" then .error .unsupportedPolicy
  else if n = 0 then .ok ["zero"]
  else
    match generate_tokens 4 n.toNat with
    | some ts => .ok ts
    | none => .error .outOfRange

/-!
Combinatorics module.  A Python dict with string keys and integer values is
modelled as an insertion-ordered association list with pairwise-distinct
keys, exactly as Python maintains it: `d[k] = v` overwrites in place when
the key is present and appends a new entry otherwise.
-/

/-- A Python `Dict[str, int]` as produced by the counting code. -/
abbrev PyDict := List (String × Nat)

/-- Embeds `d.get(k, default)`. -/
def dictGet (d : PyDict) (k : String) (default : Nat) : Nat :=
  match d.lookup k with
  | some v => v
  | none => default

/-- Embeds the assignment `d[k] = v`: overwrite in place if present, else
append. -/
def dictSet (d : PyDict) (k : String) (v : Nat) : PyDict :=
  if (d.lookup k).isSome then
    d.map fun kv => if kv.1 = k then (k, v) else kv
  else
    d ++ [(k, v)]

/-- Embeds the idiom `d[k] = d.get(k, 0) + 1` used throughout the module. -/
def bump (d : PyDict) (k : String) : PyDict :=
  dictSet d k (dictGet d k 0 + 1)

/-- Embeds `count_tokens_up_to_999`: one dict accumulating the tokens of
`text_number(n)` for n in range(1, 1000).  An exception from `text_number`
would propagate, hence the `Except` monad (no input here can raise). -/
def count_tokens_up_to_999 : Except Err PyDict :=
  (List.range' 1 999).foldlM
    (fun counts (n : Nat) =>
      (text_number (n : Int) "R1").map fun tokens => tokens.foldl bump counts)
    []

/-- Embeds the body of the per-number loop of `_count_direct`: bump the token
dict for every token, and bump the connective dict for every token equal to
"e". -/
def countStep (acc : PyDict × PyDict) (token : String) : PyDict × PyDict :=
  (bump acc.1 token, if token = "e" then bump acc.2 "e" else acc.2)

/-- Embeds `_count_direct` (called with 1 ≤ N ≤ 1000). -/
def count_direct (N : Nat) : Except Err (PyDict × PyDict) :=
  (List.range' 1 N).foldlM
    (fun acc (n : Nat) =>
      (text_number (n : Int) "R1").map fun tokens => tokens.foldl countStep acc)
    ([], [])

/-- Models the Python tuple-unpacking `a, b = d` where `d` is a dict: the
iteration yields the keys, so the unpack succeeds exactly when the dict has
two keys and raises `ValueError` otherwise. -/
def unpackTwo (d : PyDict) : Except Err (String × String) :=
  match d with
  | [(k1, _), (k2, _)] => .ok (k1, k2)
  | _ => .error .unpackMismatch

/-- Embeds `_count_blocks`.  Its first statement,
`base_tokens, base_connectives = count_tokens_up_to_999()`, tuple-unpacks the
single dict returned by `count_tokens_up_to_999` into two variables, which
raises `ValueError` unless that dict has exactly two keys (it has 38, see
`count_tokens_up_to_999_keys`).  Were the unpack ever to succeed, the next
statement `base_tokens.copy()` would call `.copy()` on a string and raise as
well, so no further body is reachable and none is modelled. -/
def count_blocks (N : Nat) : Except Err (PyDict × PyDict) :=
  count_tokens_up_to_999.bind fun counts =>
    (unpackTwo counts).bind fun _ => .error .unpackMismatch

/-- Embeds `count_tokens_up_to_N` (the spec's `countRange`). -/
def count_tokens_up_to_N (N : Int) (policy : String) :
    Except Err (PyDict × PyDict) :=
  if policy ≠ "R1" then .error .unsupportedPolicy
  else if N ≤ 0 then .ok ([], [])
  else if N ≤ 1000 then count_direct N.toNat
  else count_blocks N.toNat

/-- Spec-side reference, modelled from the spec's words "the token-by-token
sum of `verbalize(n)` for n in [1, N] computed by brute enumeration": the
number of occurrences of token `t` across the verbalizations of 1..N
(errors contribute nothing; no n in range raises). -/
def bruteTokenCount (N : Nat) (t : String) : Nat :=
  ((List.range' 1 N).map fun n : Nat =>
    match text_number (n : Int) "R1" with
    | .ok tokens => tokens.count t
    | .error _ => 0).sum

/-- Helper projecting the token list out of a successful `text_number` call
(used to state facts about calls that provably cannot raise). -/
def tokensOf (n : Nat) : List String :=
  match text_number (n : Int) "R1" with
  | .ok ts => ts
  | .error _ => []

/-!
Structural properties of the generated token sequences.
-/

/-- A well-formed verbalization of a positive number: non-empty, no leading
or trailing connective, and no occurrence of the token "zero". -/
def goodSeq (ts : List String) : Prop :=
  ts ≠ [] ∧ ts.head? ≠ some "e" ∧ ts.getLast? ≠ some "e" ∧ "zero" ∉ ts

instance (ts : List String) : Decidable (goodSeq ts) :=
  inferInstanceAs (Decidable (_ ∧ _ ∧ _ ∧ _))

/-- Lift of `goodSeq` to the optional result of `generate_tokens`. -/
def goodOpt (o : Option (List String)) : Prop :=
  match o with
  | some ts => goodSeq ts
  | none => False

instance (o : Option (List String)) : Decidable (goodOpt o) :=
  match o with
  | some ts => inferInstanceAs (Decidable (goodSeq ts))
  | none => inferInstanceAs (Decidable False)

lemma goodOpt_some {o : Option (List String)} (h : goodOpt o) :
    ∃ ts, o = some ts ∧ goodSeq ts := by
  cases o with
  | some ts => exact ⟨ts, rfl, h⟩
  | none => exact absurd h (by simp [goodOpt])

lemma goodSeq_append_word {l : List String} {w : String} (hl : goodSeq l)
    (he : w ≠ "e") (hz : w ≠ "zero") : goodSeq (l ++ [w]) := by
  obtain ⟨h1, h2, h3, h4⟩ := hl
  cases l with
  | nil => exact absurd rfl h1
  | cons a t =>
    refine ⟨by simp, by simpa using h2, ?_, ?_⟩
    · rw [List.getLast?_concat]
      simpa using he
    · intro hmem
      rcases List.mem_append.mp hmem with h | h
      · exact h4 h
      · exact hz (List.mem_singleton.mp h).symm

lemma goodSeq_append_conn {l1 l2 : List String} (hl1 : goodSeq l1)
    (hl2 : goodSeq l2) : goodSeq (l1 ++ "e" :: l2) := by
  obtain ⟨h1, h2, h3, h4⟩ := hl1
  obtain ⟨g1, g2, g3, g4⟩ := hl2
  obtain ⟨b, t2, rfl⟩ : ∃ b t2, l2 = b :: t2 := by
    cases l2 with
    | nil => exact absurd rfl g1
    | cons b t2 => exact ⟨b, t2, rfl⟩
  cases l1 with
  | nil => exact absurd rfl h1
  | cons a t =>
    refine ⟨by simp, by simpa using h2, ?_, ?_⟩
    · rw [List.getLast?_append]
      have : ("e" :: b :: t2).getLast? = (b :: t2).getLast? := List.getLast?_cons_cons
      rw [this]
      obtain ⟨x, hx⟩ : ∃ x, (b :: t2).getLast? = some x := by
        cases hb : (b :: t2).getLast? with
        | none => exact absurd (List.getLast?_eq_none_iff.mp hb) (by simp)
        | some x => exact ⟨x, rfl⟩
      rw [hx, Option.or_some]
      rw [hx] at g3
      exact g3
    · intro hmem
      rcases List.mem_append.mp hmem with h | h
      · exact h4 h
      · rcases List.mem_cons.mp h with h | h
        · exact absurd h.symm (by decide)
        · rcases List.mem_cons.mp h with h | h
          · exact g4 (h ▸ List.mem_cons_self b t2)
          · exact g4 (List.mem_cons_of_mem b h)

/-- One-step unfolding of `generate_tokens` at positive fuel. -/
lemma generate_tokens_succ (fuel n : Nat) :
    generate_tokens (fuel + 1) n =
      if n = 0 then some []
      else if 1 ≤ n ∧ n ≤ 19 then some (units_tokens n)
      else if 20 ≤ n ∧ n ≤ 99 then some (tens_tokens n)
      else if 100 ≤ n ∧ n ≤ 199 then some (hundreds_tokens n)
      else if 200 ≤ n ∧ n ≤ 999 then some (hundreds_tokens n)
      else if 1000 ≤ n ∧ n ≤ 999999 then thousands_tokens (generate_tokens fuel) n
      else if 1000000 ≤ n ∧ n ≤ 999999999 then millions_tokens (generate_tokens fuel) n
      else if 1000000000 ≤ n ∧ n ≤ 999999999999 then billions_tokens (generate_tokens fuel) n
      else none := rfl

/-- Below 1000 the recursion is never entered, so the fuel is irrelevant. -/
lemma generate_tokens_small (fuel n : Nat) (h : n ≤ 999) :
    generate_tokens (fuel + 1) n = generate_tokens 1 n := by
  have hr := generate_tokens_succ 0 n
  rw [Nat.zero_add] at hr
  rw [generate_tokens_succ fuel, hr]
  split_ifs <;> first | rfl | omega

lemma thousands_tokens_congr {g1 g2 : Nat → Option (List String)} (n : Nat)
    (hq : g1 (n / 1000) = g2 (n / 1000)) (hr : g1 (n % 1000) = g2 (n % 1000)) :
    thousands_tokens g1 n = thousands_tokens g2 n := by
  unfold thousands_tokens append_remainder
  rw [hq, hr]

lemma millions_tokens_congr {g1 g2 : Nat → Option (List String)} (n : Nat)
    (hq : g1 (n / 1000000) = g2 (n / 1000000))
    (hr : g1 (n % 1000000) = g2 (n % 1000000)) :
    millions_tokens g1 n = millions_tokens g2 n := by
  unfold millions_tokens append_remainder
  rw [hq, hr]

lemma billions_tokens_congr {g1 g2 : Nat → Option (List String)} (n : Nat)
    (hq : g1 (n / 1000000000) = g2 (n / 1000000000))
    (hr : g1 (n % 1000000000) = g2 (n % 1000000000)) :
    billions_tokens g1 n = billions_tokens g2 n := by
  unfold billions_tokens append_remainder
  rw [hq, hr]

/-- Below one million, fuel 2 suffices and more fuel does not change the
result. -/
lemma generate_tokens_med (fuel n : Nat) (h : n ≤ 999999) :
    generate_tokens (fuel + 2) n = generate_tokens 2 n := by
  by_cases hs : n ≤ 999
  · show generate_tokens ((fuel + 1) + 1) n = generate_tokens (1 + 1) n
    rw [generate_tokens_small (fuel + 1) n hs, generate_tokens_small 1 n hs]
  · show generate_tokens ((fuel + 1) + 1) n = generate_tokens (1 + 1) n
    rw [generate_tokens_succ (fuel + 1), generate_tokens_succ 1]
    split_ifs <;>
      first
        | rfl
        | omega
        | exact thousands_tokens_congr n
            (generate_tokens_small fuel _ (by omega))
            (generate_tokens_small fuel _ (by omega))

/-- Below one billion, fuel 3 suffices and more fuel does not change the
result. -/
lemma generate_tokens_large (fuel n : Nat) (h : n ≤ 999999999) :
    generate_tokens (fuel + 3) n = generate_tokens 3 n := by
  by_cases hs : n ≤ 999999
  · show generate_tokens ((fuel + 1) + 2) n = generate_tokens (1 + 2) n
    rw [generate_tokens_med (fuel + 1) n hs, generate_tokens_med 1 n hs]
  · show generate_tokens ((fuel + 2) + 1) n = generate_tokens (2 + 1) n
    rw [generate_tokens_succ (fuel + 2), generate_tokens_succ 2]
    split_ifs <;>
      first
        | rfl
        | omega
        | exact millions_tokens_congr n
            (generate_tokens_med fuel _ (by omega))
            (generate_tokens_med fuel _ (by omega))

/-- Beyond the billions band the generator raises (returns `none`) at once. -/
lemma generate_tokens_too_large (n : Nat) (h : 999999999999 < n) :
    generate_tokens 4 n = none := by
  show generate_tokens (3 + 1) n = none
  rw [generate_tokens_succ 3]
  split_ifs <;> first | rfl | omega

/-- Exhaustive check of the three non-recursive bands, first fifth. -/
lemma gen1_good_chunk0 : ∀ k, k < 199 → goodOpt (generate_tokens 1 (1 + k)) := by
  decide

/-- Exhaustive check of the three non-recursive bands, second fifth. -/
lemma gen1_good_chunk1 : ∀ k, k < 200 → goodOpt (generate_tokens 1 (200 + k)) := by
  decide

/-- Exhaustive check of the three non-recursive bands, third fifth. -/
lemma gen1_good_chunk2 : ∀ k, k < 200 → goodOpt (generate_tokens 1 (400 + k)) := by
  decide

/-- Exhaustive check of the three non-recursive bands, fourth fifth. -/
lemma gen1_good_chunk3 : ∀ k, k < 200 → goodOpt (generate_tokens 1 (600 + k)) := by
  decide

/-- Exhaustive check of the three non-recursive bands, last fifth. -/
lemma gen1_good_chunk4 : ∀ k, k < 200 → goodOpt (generate_tokens 1 (800 + k)) := by
  decide

/-- Every verbalization of 1 ≤ n ≤ 999 is well formed (chunked exhaustive
check, to keep each decision procedure small). -/
lemma gen1_good : ∀ n, n < 1000 → 1 ≤ n → goodOpt (generate_tokens 1 n) := by
  intro n h1 h2
  by_cases c0 : n < 200
  · have h := gen1_good_chunk0 (n - 1) (by omega)
    rwa [show 1 + (n - 1) = n from by omega] at h
  · by_cases c1 : n < 400
    · have h := gen1_good_chunk1 (n - 200) (by omega)
      rwa [show 200 + (n - 200) = n from by omega] at h
    · by_cases c2 : n < 600
      · have h := gen1_good_chunk2 (n - 400) (by omega)
        rwa [show 400 + (n - 400) = n from by omega] at h
      · by_cases c3 : n < 800
        · have h := gen1_good_chunk3 (n - 600) (by omega)
          rwa [show 600 + (n - 600) = n from by omega] at h
        · have h := gen1_good_chunk4 (n - 800) (by omega)
          rwa [show 800 + (n - 800) = n from by omega] at h

lemma append_remainder_good {gen : Nat → Option (List String)}
    {tokens : List String} (r : Nat) (htok : goodSeq tokens)
    (hr : 1 ≤ r → goodOpt (gen r)) :
    goodOpt (append_remainder gen tokens r) := by
  unfold append_remainder
  by_cases h0 : r > 0
  · obtain ⟨tr, hgen, hgood⟩ := goodOpt_some (hr (by omega))
    rw [if_pos h0, hgen]
    by_cases h100 : r < 100
    · rw [if_pos h100]
      exact goodSeq_append_conn htok hgood
    · rw [if_neg h100]
      simp only [Option.map_some']
      rw [if_neg hgood.1]
      exact goodSeq_append_conn htok hgood
  · rw [if_neg h0]
    exact htok

lemma thousands_tokens_good {gen : Nat → Option (List String)} {n : Nat}
    (hq : n / 1000 ≠ 1 → goodOpt (gen (n / 1000)))
    (hr : 1 ≤ n % 1000 → goodOpt (gen (n % 1000))) :
    goodOpt (thousands_tokens gen n) := by
  unfold thousands_tokens
  by_cases hq1 : n / 1000 = 1
  · rw [if_pos hq1]
    exact append_remainder_good _ (by decide) hr
  · rw [if_neg hq1]
    obtain ⟨tq, hgen, hgood⟩ := goodOpt_some (hq hq1)
    rw [hgen]
    exact append_remainder_good _ (goodSeq_append_word hgood (by decide) (by decide)) hr

lemma millions_tokens_good {gen : Nat → Option (List String)} {n : Nat}
    (hq : n / 1000000 ≠ 1 → goodOpt (gen (n / 1000000)))
    (hr : 1 ≤ n % 1000000 → goodOpt (gen (n % 1000000))) :
    goodOpt (millions_tokens gen n) := by
  unfold millions_tokens
  by_cases hq1 : n / 1000000 = 1
  · rw [if_pos hq1]
    exact append_remainder_good _ (by decide) hr
  · rw [if_neg hq1]
    obtain ⟨tm, hgen, hgood⟩ := goodOpt_some (hq hq1)
    rw [hgen]
    exact append_remainder_good _ (goodSeq_append_word hgood (by decide) (by decide)) hr

lemma billions_tokens_good {gen : Nat → Option (List String)} {n : Nat}
    (hq : n / 1000000000 ≠ 1 → goodOpt (gen (n / 1000000000)))
    (hr : 1 ≤ n % 1000000000 → goodOpt (gen (n % 1000000000))) :
    goodOpt (billions_tokens gen n) := by
  unfold billions_tokens
  by_cases hq1 : n / 1000000000 = 1
  · rw [if_pos hq1]
    exact append_remainder_good _ (by decide) hr
  · rw [if_neg hq1]
    obtain ⟨tb, hgen, hgood⟩ := goodOpt_some (hq hq1)
    rw [hgen]
    exact append_remainder_good _ (goodSeq_append_word hgood (by decide) (by decide)) hr

lemma gen2_good (n : Nat) (h1 : 1 ≤ n) (h2 : n ≤ 999999) :
    goodOpt (generate_tokens 2 n) := by
  by_cases hs : n ≤ 999
  · have heq : generate_tokens (1 + 1) n = generate_tokens 1 n :=
      generate_tokens_small 1 n hs
    show goodOpt (generate_tokens (1 + 1) n)
    rw [heq]
    exact gen1_good n (by omega) h1
  · show goodOpt (generate_tokens (1 + 1) n)
    rw [generate_tokens_succ 1]
    split_ifs <;> first
      | omega
      | exact thousands_tokens_good
          (fun _ => gen1_good (n / 1000) (by omega) (by omega))
          (fun h => gen1_good (n % 1000) (by omega) h)

lemma gen3_good (n : Nat) (h1 : 1 ≤ n) (h2 : n ≤ 999999999) :
    goodOpt (generate_tokens 3 n) := by
  by_cases hs : n ≤ 999999
  · have heq : generate_tokens (1 + 2) n = generate_tokens 2 n :=
      generate_tokens_med 1 n hs
    show goodOpt (generate_tokens (1 + 2) n)
    rw [heq]
    exact gen2_good n h1 hs
  · show goodOpt (generate_tokens (2 + 1) n)
    rw [generate_tokens_succ 2]
    split_ifs <;> first
      | omega
      | exact millions_tokens_good
          (fun _ => gen2_good (n / 1000000) (by omega) (by omega))
          (fun h => gen2_good (n % 1000000) h (by omega))

lemma gen4_good (n : Nat) (h1 : 1 ≤ n) (h2 : n ≤ 999999999999) :
    goodOpt (generate_tokens 4 n) := by
  by_cases hs : n ≤ 999999999
  · have heq : generate_tokens (1 + 3) n = generate_tokens 3 n :=
      generate_tokens_large 1 n hs
    show goodOpt (generate_tokens (1 + 3) n)
    rw [heq]
    exact gen3_good n h1 hs
  · show goodOpt (generate_tokens (3 + 1) n)
    rw [generate_tokens_succ 3]
    split_ifs <;> first
      | omega
      | exact billions_tokens_good
          (fun _ => gen3_good (n / 1000000000) (by omega) (by omega))
          (fun h => gen3_good (n % 1000000000) h (by omega))

/-- On a positive in-band input under policy R1, `text_number` returns the
tokens of `generate_tokens`. -/
lemma text_number_natCast (n : Nat) (h1 : 1 ≤ n) :
    text_number (n : Int) "R1" =
      match generate_tokens 4 n with
      | some ts => .ok ts
      | none => .error .outOfRange := by
  unfold text_number
  rw [if_neg (by omega : ¬((n : Int) < 0)),
    if_neg (show ¬("R1" ≠ "R1") by simp),
    if_neg (by omega : ¬((n : Int) = 0)),
    Int.toNat_natCast]

/-- Totality and well-formedness of `text_number` on positive in-band
inputs. -/
lemma text_number_good (n : Nat) (h1 : 1 ≤ n) (h2 : n ≤ 999999999999) :
    ∃ ts, text_number (n : Int) "R1" = .ok ts ∧ goodSeq ts := by
  obtain ⟨ts, hgen, hgood⟩ := goodOpt_some (gen4_good n h1 h2)
  refine ⟨ts, ?_, hgood⟩
  rw [text_number_natCast n h1, hgen]

lemma append_remainder_zero {gen : Nat → Option (List String)}
    {tokens : List String} : append_remainder gen tokens 0 = some tokens := rfl

lemma append_remainder_pos {gen : Nat → Option (List String)}
    {tokens tr : List String} {r : Nat} (h0 : 1 ≤ r) (hgen : gen r = some tr)
    (hne : tr ≠ []) :
    append_remainder gen tokens r = some (tokens ++ "e" :: tr) := by
  unfold append_remainder
  rw [if_pos (by omega : r > 0), hgen]
  by_cases h100 : r < 100
  · rw [if_pos h100]
    rfl
  · rw [if_neg h100]
    simp only [Option.map_some']
    rw [if_neg hne]

lemma gen1_text (m : Nat) (h1 : 1 ≤ m) (h2 : m ≤ 999) :
    text_number (m : Int) "R1" =
      match generate_tokens 1 m with
      | some ts => .ok ts
      | none => .error .outOfRange := by
  rw [text_number_natCast m h1]
  have hst : generate_tokens 4 m = generate_tokens 1 m := by
    show generate_tokens (3 + 1) m = _
    exact generate_tokens_small 3 m h2
  rw [hst]

lemma gen1_text_ok {ts : List String} (m : Nat) (h1 : 1 ≤ m) (h2 : m ≤ 999)
    (h : generate_tokens 1 m = some ts) :
    text_number (m : Int) "R1" = .ok ts := by
  rw [gen1_text m h1 h2, h]

/-- The thousands-band shape claimed by the spec: the verbalization of n is a
head part ("mil" alone when the thousands component is 1, otherwise the
component's own verbalization followed by "mil") followed, whenever the
remainder is positive and regardless of its magnitude, by the connective "e"
and the remainder's verbalization. -/
def thousands_decomposition (n : Nat) : Prop :=
  ∃ hd tl, text_number (n : Int) "R1" = .ok (hd ++ tl) ∧
    (if n / 1000 = 1 then hd = ["mil"]
     else ∃ tq, text_number ((n / 1000 : Nat) : Int) "R1" = .ok tq ∧
       hd = tq ++ ["mil"]) ∧
    (if n % 1000 = 0 then tl = []
     else ∃ tr, text_number ((n % 1000 : Nat) : Int) "R1" = .ok tr ∧
       tl = "e" :: tr)

/-- Claim C3: in the thousands band the verbalization starts with "mil" (for
thousands component 1) or with the component's verbalization followed by
"mil", and appends "e" plus the remainder's verbalization whenever the
remainder is positive, regardless of its magnitude; in particular
verbalize(1000) is exactly "mil" and verbalize(1001) is "mil e um". -/
theorem C3_thousands_rule (n : Nat) (h1 : 1000 ≤ n) (h2 : n ≤ 999999) :
    thousands_decomposition n ∧
    text_number 1000 "R1" = .ok ["mil"] ∧
    text_number 1001 "R1" = .ok ["mil", "e", "um"] := by
  refine ⟨?_, rfl, rfl⟩
  have hmain : text_number (n : Int) "R1" =
      match thousands_tokens (generate_tokens 1) n with
      | some ts => .ok ts
      | none => .error .outOfRange := by
    rw [text_number_natCast n (by omega)]
    have h4 : generate_tokens 4 n = generate_tokens 2 n := by
      show generate_tokens (2 + 2) n = _
      exact generate_tokens_med 2 n h2
    have h2g : generate_tokens 2 n = thousands_tokens (generate_tokens 1) n := by
      show generate_tokens (1 + 1) n = _
      rw [generate_tokens_succ 1]
      split_ifs <;> first | rfl | omega
    rw [h4, h2g]
  unfold thousands_decomposition
  by_cases hq1 : n / 1000 = 1
  · by_cases hr0 : n % 1000 = 0
    · refine ⟨["mil"], [], ?_, by simp [hq1], by simp [hr0]⟩
      have ht : thousands_tokens (generate_tokens 1) n = some ["mil"] := by
        unfold thousands_tokens
        rw [if_pos hq1, hr0, append_remainder_zero]
      rw [hmain, ht]
      simp
    · have hrb : 1 ≤ n % 1000 := by omega
      obtain ⟨tr, hgenr, hgoodr⟩ := goodOpt_some (gen1_good (n % 1000) (by omega) hrb)
      refine ⟨["mil"], "e" :: tr, ?_, by simp [hq1], ?_⟩
      · have ht : thousands_tokens (generate_tokens 1) n =
            some (["mil"] ++ "e" :: tr) := by
          unfold thousands_tokens
          rw [if_pos hq1]
          exact append_remainder_pos hrb hgenr hgoodr.1
        rw [hmain, ht]
      · rw [if_neg hr0]
        exact ⟨tr, gen1_text_ok (n % 1000) hrb (by omega) hgenr, rfl⟩
  · have hqb1 : 1 ≤ n / 1000 := by omega
    have hqb2 : n / 1000 ≤ 999 := by omega
    obtain ⟨tq, hgenq, hgoodq⟩ := goodOpt_some (gen1_good (n / 1000) (by omega) hqb1)
    by_cases hr0 : n % 1000 = 0
    · refine ⟨tq ++ ["mil"], [], ?_, ?_, by simp [hr0]⟩
      · have ht : thousands_tokens (generate_tokens 1) n = some (tq ++ ["mil"]) := by
          unfold thousands_tokens
          rw [if_neg hq1, hgenq]
          show append_remainder (generate_tokens 1) (tq ++ ["mil"]) (n % 1000) = _
          rw [hr0, append_remainder_zero]
        rw [hmain, ht]
        simp
      · rw [if_neg hq1]
        exact ⟨tq, gen1_text_ok (n / 1000) hqb1 hqb2 hgenq, rfl⟩
    · have hrb : 1 ≤ n % 1000 := by omega
      obtain ⟨tr, hgenr, hgoodr⟩ := goodOpt_some (gen1_good (n % 1000) (by omega) hrb)
      refine ⟨tq ++ ["mil"], "e" :: tr, ?_, ?_, ?_⟩
      · have ht : thousands_tokens (generate_tokens 1) n =
            some ((tq ++ ["mil"]) ++ "e" :: tr) := by
          unfold thousands_tokens
          rw [if_neg hq1, hgenq]
          show append_remainder (generate_tokens 1) (tq ++ ["mil"]) (n % 1000) = _
          exact append_remainder_pos hrb hgenr hgoodr.1
        rw [hmain, ht]
      · rw [if_neg hq1]
        exact ⟨tq, gen1_text_ok (n / 1000) hqb1 hqb2 hgenq, rfl⟩
      · rw [if_neg hr0]
        exact ⟨tr, gen1_text_ok (n % 1000) hrb (by omega) hgenr, rfl⟩

/-- Witness for C3 at n = 2345. -/
theorem C3_thousands_rule_witness :
    thousands_decomposition 2345 ∧
    text_number 1000 "R1" = .ok ["mil"] ∧
    text_number 1001 "R1" = .ok ["mil", "e", "um"] :=
  C3_thousands_rule 2345 (by norm_num) (by norm_num)

/-- Counterexample to C4 as stated: for n = -1 under policy "R2" the policy
is not "R1", yet the function fails with InvalidArgument, not
UnsupportedPolicy — the negativity check runs first. -/
theorem C4_policy_order_counterexample :
    text_number (-1) "R2" = .error .invalidArgument ∧
    Err.invalidArgument ≠ Err.unsupportedPolicy :=
  ⟨rfl, by decide⟩

/-- Claim C4 amended: the three failure conditions are checked in order
(negativity, then policy, then magnitude), so each error is characterised by
its own condition conjoined with the negations of the earlier ones; on
0 ≤ n < 10^12 under policy R1 the call succeeds. -/
theorem C4_error_conditions_amended (n : Int) (policy : String) :
    (text_number n policy = .error .invalidArgument ↔ n < 0) ∧
    (text_number n policy = .error .unsupportedPolicy ↔ 0 ≤ n ∧ policy ≠ "R1") ∧
    (text_number n policy = .error .outOfRange ↔
      0 ≤ n ∧ policy = "R1" ∧ 1000000000000 ≤ n) ∧
    (0 ≤ n → policy = "R1" → n < 1000000000000 →
      ∃ ts, text_number n policy = .ok ts) := by
  by_cases hn : n < 0
  · have he : text_number n policy = .error .invalidArgument := by
      unfold text_number
      rw [if_pos hn]
    rw [he]
    refine ⟨⟨fun _ => hn, fun _ => rfl⟩, ?_, ?_, ?_⟩
    · exact ⟨fun h => absurd h (by decide), fun h => absurd hn (by omega)⟩
    · exact ⟨fun h => absurd h (by decide), fun h => absurd hn (by push_neg; exact h.1)⟩
    · intro h0
      exact absurd hn (by omega)
  · have hn' : 0 ≤ n := by omega
    by_cases hp : policy = "R1"
    · subst hp
      by_cases h0 : n = 0
      · subst h0
        have he : text_number (0 : Int) "R1" = .ok ["zero"] := rfl
        rw [he]
        refine ⟨?_, ?_, ?_, fun _ _ _ => ⟨["zero"], rfl⟩⟩
        · exact ⟨fun h => absurd h (by decide), fun h => absurd h (by omega)⟩
        · exact ⟨fun h => absurd h (by decide), fun h => absurd rfl h.2⟩
        · exact ⟨fun h => absurd h (by decide), fun h => by omega⟩
      · have hpos : 1 ≤ n.toNat := by omega
        have hcast : ((n.toNat : Nat) : Int) = n := Int.toNat_of_nonneg hn'
        by_cases hbig : n ≤ 999999999999
        · obtain ⟨ts, hok, -⟩ := text_number_good n.toNat hpos (by omega)
          rw [hcast] at hok
          rw [hok]
          refine ⟨?_, ?_, ?_, fun _ _ _ => ⟨ts, rfl⟩⟩
          · exact ⟨fun h => absurd h (by simp), fun h => absurd h (by omega)⟩
          · exact ⟨fun h => absurd h (by simp), fun h => absurd rfl h.2⟩
          · exact ⟨fun h => absurd h (by simp), fun h => by omega⟩
        · have he : text_number n "R1" = .error .outOfRange := by
            calc text_number n "R1" = text_number ((n.toNat : Nat) : Int) "R1" := by
                  rw [hcast]
              _ = match generate_tokens 4 n.toNat with
              | some ts => .ok ts
              | none => .error .outOfRange := text_number_natCast n.toNat hpos
              _ = .error .outOfRange := by
                  rw [generate_tokens_too_large n.toNat (by omega)]
          rw [he]
          refine ⟨?_, ?_, ?_, ?_⟩
          · exact ⟨fun h => absurd h (by decide), fun h => absurd h (by omega)⟩
          · exact ⟨fun h => absurd h (by decide), fun h => absurd rfl h.2⟩
          · exact ⟨fun _ => ⟨hn', rfl, by omega⟩, fun _ => rfl⟩
          · intro _ _ hlt
            exact absurd hlt (by omega)
    · have he : text_number n policy = .error .unsupportedPolicy := by
        unfold text_number
        rw [if_neg hn, if_pos hp]
      rw [he]
      refine ⟨?_, ?_, ?_, ?_⟩
      · exact ⟨fun h => absurd h (by decide), fun h => absurd h hn⟩
      · exact ⟨fun _ => ⟨hn', hp⟩, fun _ => rfl⟩
      · exact ⟨fun h => absurd h (by decide), fun h => absurd h.2.1 hp⟩
      · intro _ hpol
        exact absurd hpol hp

/-- Witness for the amended C4 at n = 7, policy R1. -/
theorem C4_error_conditions_witness :
    (text_number 7 "R1" = .error .invalidArgument ↔ (7 : Int) < 0) ∧
    (text_number 7 "R1" = .error .unsupportedPolicy ↔
      (0 : Int) ≤ 7 ∧ "R1" ≠ "R1") ∧
    (text_number 7 "R1" = .error .outOfRange ↔
      (0 : Int) ≤ 7 ∧ "R1" = "R1" ∧ (1000000000000 : Int) ≤ 7) ∧
    ((0 : Int) ≤ 7 → "R1" = "R1" → (7 : Int) < 1000000000000 →
      ∃ ts, text_number 7 "R1" = .ok ts) :=
  C4_error_conditions_amended 7 "R1"

/-- Hundreds-band "cem" check, 100–199. -/
lemma cem_band_chunk0 : ∀ k, k < 100 →
    ("cem" ∈ tokensOf (100 + k) ↔ 100 + k = 100) := by
  decide

/-- Hundreds-band "cem" check, 200–399. -/
lemma cem_band_chunk1 : ∀ k, k < 200 →
    ("cem" ∈ tokensOf (200 + k) ↔ 200 + k = 100) := by
  decide

/-- Hundreds-band "cem" check, 400–599. -/
lemma cem_band_chunk2 : ∀ k, k < 200 →
    ("cem" ∈ tokensOf (400 + k) ↔ 400 + k = 100) := by
  decide

/-- Hundreds-band "cem" check, 600–799. -/
lemma cem_band_chunk3 : ∀ k, k < 200 →
    ("cem" ∈ tokensOf (600 + k) ↔ 600 + k = 100) := by
  decide

/-- Hundreds-band "cem" check, 800–999. -/
lemma cem_band_chunk4 : ∀ k, k < 200 →
    ("cem" ∈ tokensOf (800 + k) ↔ 800 + k = 100) := by
  decide

/-- In the hundreds band, "cem" occurs in a verbalization of 100 ≤ m ≤ 999
exactly at the boundary m = 100 (chunked exhaustive check). -/
lemma cem_band : ∀ m : Nat, m ≤ 999 → 100 ≤ m →
    ("cem" ∈ tokensOf m ↔ m = 100) := by
  intro m h1 h2
  by_cases c0 : m < 200
  · have h := cem_band_chunk0 (m - 100) (by omega)
    rwa [show 100 + (m - 100) = m from by omega] at h
  · by_cases c1 : m < 400
    · have h := cem_band_chunk1 (m - 200) (by omega)
      rwa [show 200 + (m - 200) = m from by omega] at h
    · by_cases c2 : m < 600
      · have h := cem_band_chunk2 (m - 400) (by omega)
        rwa [show 400 + (m - 400) = m from by omega] at h
      · by_cases c3 : m < 800
        · have h := cem_band_chunk3 (m - 600) (by omega)
          rwa [show 600 + (m - 600) = m from by omega] at h
        · have h := cem_band_chunk4 (m - 800) (by omega)
          rwa [show 800 + (m - 800) = m from by omega] at h

/-- Exhaustive check: for 101 ≤ m ≤ 199 the verbalization is "cento", "e",
then the verbalization of m - 100. -/
lemma cento_band : ∀ m : Nat, m ≤ 199 → 101 ≤ m →
    text_number (m : Int) "R1" =
      (text_number ((m : Int) - 100) "R1").map fun tr => "cento" :: "e" :: tr := by
  decide

/-- Claim C6: verbalize(100) is the irregular atomic "cem", used in the
hundreds band only at that boundary, and for 101 ≤ n ≤ 199 the
verbalization is "cento", "e", followed by verbalize(n - 100). -/
theorem C6_hundred_band (n : Nat) (h1 : 101 ≤ n) (h2 : n ≤ 199) :
    text_number 100 "R1" = .ok ["cem"] ∧
    (∀ m : Nat, m ≤ 999 → 100 ≤ m → ("cem" ∈ tokensOf m ↔ m = 100)) ∧
    text_number (n : Int) "R1" =
      (text_number ((n : Int) - 100) "R1").map fun tr => "cento" :: "e" :: tr :=
  ⟨rfl, cem_band, cento_band n h2 h1⟩

/-- Witness for C6 at n = 150. -/
theorem C6_hundred_band_witness :
    text_number 100 "R1" = .ok ["cem"] ∧
    (∀ m : Nat, m ≤ 999 → 100 ≤ m → ("cem" ∈ tokensOf m ↔ m = 100)) ∧
    text_number ((150 : Nat) : Int) "R1" =
      (text_number (((150 : Nat) : Int) - 100) "R1").map fun tr =>
        "cento" :: "e" :: tr :=
  C6_hundred_band 150 (by norm_num) (by norm_num)

/-- Claim C7: in the whole supported range the connective "e" is never the
first and never the last token of a verbalization. -/
theorem C7_connective_placement (n : Nat) (h : n < 10 ^ 12) :
    ∃ ts, text_number (n : Int) "R1" = .ok ts ∧
      ts.head? ≠ some "e" ∧ ts.getLast? ≠ some "e" := by
  rcases Nat.eq_zero_or_pos n with rfl | hpos
  · exact ⟨["zero"], rfl, by decide, by decide⟩
  · have hb : n ≤ 999999999999 := by
      norm_num at h
      omega
    obtain ⟨ts, hok, hgood⟩ := text_number_good n hpos hb
    exact ⟨ts, hok, hgood.2.1, hgood.2.2.1⟩

/-- Witness for C7 at n = 21. -/
theorem C7_connective_placement_witness :
    ∃ ts, text_number ((21 : Nat) : Int) "R1" = .ok ts ∧
      ts.head? ≠ some "e" ∧ ts.getLast? ≠ some "e" :=
  C7_connective_placement 21 (by norm_num)

/-- Claim C8: every verbalization in the supported range is non-empty, and
verbalize(0) is exactly the singleton "zero". -/
theorem C8_nonempty (n : Nat) (h : n < 10 ^ 12) :
    (∃ ts, text_number (n : Int) "R1" = .ok ts ∧ 1 ≤ ts.length) ∧
    text_number 0 "R1" = .ok ["zero"] := by
  refine ⟨?_, rfl⟩
  rcases Nat.eq_zero_or_pos n with rfl | hpos
  · exact ⟨["zero"], rfl, by decide⟩
  · have hb : n ≤ 999999999999 := by
      norm_num at h
      omega
    obtain ⟨ts, hok, hgood⟩ := text_number_good n hpos hb
    exact ⟨ts, hok, List.length_pos.mpr hgood.1⟩

/-- Witness for C8 at n = 1000000. -/
theorem C8_nonempty_witness :
    (∃ ts, text_number ((1000000 : Nat) : Int) "R1" = .ok ts ∧ 1 ≤ ts.length) ∧
    text_number 0 "R1" = .ok ["zero"] :=
  C8_nonempty 1000000 (by norm_num)

/-- Claim C10: the token "zero" never occurs in the verbalization of any
positive number in the supported range. -/
theorem C10_zero_token_only_for_zero (n : Nat) (h1 : 1 ≤ n)
    (h2 : n ≤ 999999999999) :
    ∃ ts, text_number (n : Int) "R1" = .ok ts ∧ "zero" ∉ ts := by
  obtain ⟨ts, hok, hgood⟩ := text_number_good n h1 h2
  exact ⟨ts, hok, hgood.2.2.2⟩

/-- Witness for C10 at n = 1000. -/
theorem C10_zero_token_only_for_zero_witness :
    ∃ ts, text_number ((1000 : Nat) : Int) "R1" = .ok ts ∧ "zero" ∉ ts :=
  C10_zero_token_only_for_zero 1000 (by norm_num) (by norm_num)

/-- Claim C9: the policy check in `count_tokens_up_to_N` precedes the
empty-range short-circuit, so any unsupported policy raises even for
N ≤ 0. -/
theorem C9_policy_check_precedes_empty (N : Int) (policy : String)
    (h : policy ≠ "R1") :
    count_tokens_up_to_N N policy = .error .unsupportedPolicy := by
  unfold count_tokens_up_to_N
  rw [if_pos h]

/-- Witness for C9 at N = 0, policy "R2". -/
theorem C9_policy_check_precedes_empty_witness :
    count_tokens_up_to_N 0 "R2" = .error .unsupportedPolicy :=
  C9_policy_check_precedes_empty 0 "R2" (by decide)

/-!
Counting lemmas.  The enumeration loops call `text_number` only on inputs
that provably cannot raise, so each `foldlM` over `Except` collapses to a
pure `foldl` over `tokensOf`.
-/

lemma foldlM_bump_ok :
    ∀ (l : List Nat) (init : PyDict),
      (∀ n ∈ l, 1 ≤ n ∧ n ≤ 999999999999) →
      (l.foldlM
          (fun counts (n : Nat) => (text_number (n : Int) "R1").map fun tokens => tokens.foldl bump counts)
          init : Except Err PyDict)
        = .ok (l.foldl (fun counts (n : Nat) => (tokensOf n).foldl bump counts) init) := by
  intro l
  induction l with
  | nil => intro init h; rfl
  | cons a t ih =>
    intro init h
    obtain ⟨ha1, ha2⟩ := h a (List.mem_cons_self a t)
    obtain ⟨ts, hts, -⟩ := text_number_good a ha1 ha2
    have htok : tokensOf a = ts := by
      unfold tokensOf
      rw [hts]
    rw [List.foldlM_cons, hts, List.foldl_cons, htok]
    exact ih (ts.foldl bump init) fun n hn => h n (List.mem_cons_of_mem a hn)

lemma foldlM_countStep_ok :
    ∀ (l : List Nat) (init : PyDict × PyDict),
      (∀ n ∈ l, 1 ≤ n ∧ n ≤ 999999999999) →
      (l.foldlM
          (fun acc (n : Nat) => (text_number (n : Int) "R1").map fun tokens => tokens.foldl countStep acc)
          init : Except Err (PyDict × PyDict))
        = .ok (l.foldl (fun acc (n : Nat) => (tokensOf n).foldl countStep acc) init) := by
  intro l
  induction l with
  | nil => intro init h; rfl
  | cons a t ih =>
    intro init h
    obtain ⟨ha1, ha2⟩ := h a (List.mem_cons_self a t)
    obtain ⟨ts, hts, -⟩ := text_number_good a ha1 ha2
    have htok : tokensOf a = ts := by
      unfold tokensOf
      rw [hts]
    rw [List.foldlM_cons, hts, List.foldl_cons, htok]
    exact ih (ts.foldl countStep init) fun n hn => h n (List.mem_cons_of_mem a hn)

lemma mem_range'_bounds {n s len : Nat} (h : n ∈ List.range' s len) :
    s ≤ n ∧ n < s + len := by
  rw [List.mem_range'] at h
  obtain ⟨i, hi, rfl⟩ := h
  omega

/-- The pure accumulation underlying `count_tokens_up_to_999`. -/
def base999 : PyDict :=
  (List.range' 1 999).foldl (fun counts n => (tokensOf n).foldl bump counts) []

lemma count_tokens_up_to_999_eq : count_tokens_up_to_999 = .ok base999 := by
  unfold count_tokens_up_to_999 base999
  exact foldlM_bump_ok (List.range' 1 999) [] fun n hn => by
    have := mem_range'_bounds hn
    omega

lemma bump_length_le (d : PyDict) (k : String) :
    d.length ≤ (bump d k).length := by
  unfold bump dictSet
  by_cases h : (d.lookup k).isSome
  · rw [if_pos h, List.length_map]
  · rw [if_neg h, List.length_append]
    omega

lemma foldl_bump_length_le (tokens : List String) :
    ∀ d : PyDict, d.length ≤ (tokens.foldl bump d).length := by
  induction tokens with
  | nil => intro d; exact le_refl _
  | cons a t ih =>
    intro d
    rw [List.foldl_cons]
    exact le_trans (bump_length_le d a) (ih (bump d a))

lemma foldl_nums_length_le (l : List Nat) :
    ∀ d : PyDict,
      d.length ≤ (l.foldl (fun counts n => (tokensOf n).foldl bump counts) d).length := by
  induction l with
  | nil => intro d; exact le_refl _
  | cons a t ih =>
    intro d
    rw [List.foldl_cons]
    exact le_trans (foldl_bump_length_le (tokensOf a) d) (ih _)

lemma base999_length : 3 ≤ base999.length := by
  have hsplit : List.range' 1 999 = [1, 2, 3] ++ List.range' 4 996 := rfl
  have h3 : (([1, 2, 3] : List Nat).foldl
      (fun counts n => (tokensOf n).foldl bump counts) [])
      = [("um", 1), ("dois", 1), ("três", 1)] := rfl
  unfold base999
  rw [hsplit, List.foldl_append, h3]
  calc (3 : Nat) = ([("um", 1), ("dois", 1), ("três", 1)] : PyDict).length := rfl
    _ ≤ _ := foldl_nums_length_le (List.range' 4 996) _

lemma unpackTwo_of_length_ne_two {d : PyDict} (h : d.length ≠ 2) :
    unpackTwo d = .error .unpackMismatch := by
  match d with
  | [] => rfl
  | [(k1, v1)] => rfl
  | (k1, v1) :: (k2, v2) :: [] => exact absurd rfl h
  | (k1, v1) :: (k2, v2) :: x :: t => rfl

lemma except_bind_ok {ε α β : Type} (x : α) (f : α → Except ε β) :
    (Except.ok x : Except ε α).bind f = f x := rfl

lemma count_blocks_eq_of_base (N : Nat) (d : PyDict)
    (hd : count_tokens_up_to_999 = .ok d) (h2 : d.length ≠ 2) :
    count_blocks N = .error .unpackMismatch := by
  unfold count_blocks
  rw [hd]
  simp only [except_bind_ok]
  rw [unpackTwo_of_length_ne_two h2]
  rfl

/-- The first statement of `_count_blocks` always raises: the base dict has
38 keys, not 2, so the tuple-unpack fails for every N. -/
lemma count_blocks_raises (N : Nat) :
    count_blocks N = .error .unpackMismatch :=
  count_blocks_eq_of_base N base999 count_tokens_up_to_999_eq
    (by have := base999_length; omega)

/-- Brute enumeration over 1..1001, split into four chunks so that each
evaluation stays shallow: the token "mil" occurs exactly twice. -/
lemma brute_1001_mil : bruteTokenCount 1001 "mil" = 2 := by
  unfold bruteTokenCount
  have e1 : List.range' 1 251 ++ List.range' 252 250 = List.range' 1 501 := by
    have h := List.range'_append_1 1 251 250
    norm_num at h
    exact h
  have e2 : List.range' 1 501 ++ List.range' 502 250 = List.range' 1 751 := by
    have h := List.range'_append_1 1 501 250
    norm_num at h
    exact h
  have e3 : List.range' 1 751 ++ List.range' 752 250 = List.range' 1 1001 := by
    have h := List.range'_append_1 1 751 250
    norm_num at h
    exact h
  rw [← e3, ← e2, ← e1, List.map_append, List.map_append, List.map_append,
    List.sum_append, List.sum_append, List.sum_append]
  have c1 : ((List.range' 1 251).map (fun n : Nat =>
      match text_number (n : Int) "R1" with
      | .ok tokens => tokens.count "mil"
      | .error _ => 0)).sum = 0 := rfl
  have c2 : ((List.range' 252 250).map (fun n : Nat =>
      match text_number (n : Int) "R1" with
      | .ok tokens => tokens.count "mil"
      | .error _ => 0)).sum = 0 := rfl
  have c3 : ((List.range' 502 250).map (fun n : Nat =>
      match text_number (n : Int) "R1" with
      | .ok tokens => tokens.count "mil"
      | .error _ => 0)).sum = 0 := rfl
  have c4 : ((List.range' 752 250).map (fun n : Nat =>
      match text_number (n : Int) "R1" with
      | .ok tokens => tokens.count "mil"
      | .error _ => 0)).sum = 2 := rfl
  rw [c1, c2, c3, c4]

/-- Claim C1 (code bug): for N = 1001 the block-decomposition path raises a
ValueError instead of returning the brute-enumeration counts, under which
the token "mil" occurs exactly twice (in 1000 and in 1001). -/
theorem C1_block_path_crashes :
    count_tokens_up_to_N 1001 "R1" = .error .unpackMismatch ∧
    bruteTokenCount 1001 "mil" = 2 := by
  constructor
  · unfold count_tokens_up_to_N
    rw [if_neg (show ¬("R1" ≠ "R1") by simp),
      if_neg (by norm_num : ¬((1001 : Int) ≤ 0)),
      if_neg (by norm_num : ¬((1001 : Int) ≤ 1000))]
    exact count_blocks_raises _
  · exact brute_1001_mil

lemma count_direct_eq (N : Nat) (h : N ≤ 1000) :
    count_direct N =
      .ok ((List.range' 1 N).foldl
        (fun acc n => (tokensOf n).foldl countStep acc) ([], [])) := by
  unfold count_direct
  exact foldlM_countStep_ok (List.range' 1 N) ([], []) fun n hn => by
    have := mem_range'_bounds hn
    omega

/-- Claim C2 (code bug): range additivity already fails at A = 1000,
B = 1001, because `count_tokens_up_to_N 1000` returns a well-defined pair
while `count_tokens_up_to_N 1001` raises, so the two sides of the additivity
equation cannot be equal. -/
theorem C2_range_additivity_crashes :
    (∃ p, count_tokens_up_to_N 1000 "R1" = .ok p) ∧
    count_tokens_up_to_N 1001 "R1" = .error .unpackMismatch := by
  constructor
  · have h := count_direct_eq ((1000 : Int).toNat) (by decide)
    have hN : count_tokens_up_to_N 1000 "R1" = count_direct ((1000 : Int).toNat) := by
      unfold count_tokens_up_to_N
      rw [if_neg (show ¬("R1" ≠ "R1") by simp),
        if_neg (by norm_num : ¬((1000 : Int) ≤ 0)),
        if_pos (by norm_num : (1000 : Int) ≤ 1000)]
    exact ⟨_, hN.trans h⟩
  · unfold count_tokens_up_to_N
    rw [if_neg (show ¬("R1" ≠ "R1") by simp),
      if_neg (by norm_num : ¬((1001 : Int) ≤ 0)),
      if_neg (by norm_num : ¬((1001 : Int) ≤ 1000))]
    exact count_blocks_raises _

/-- Claim C5: `count_tokens_up_to_N` returns the empty pair for every N ≤ 0;
at N = 1 the token map holds only "um" once and the connective map is empty
(zero connectives). -/
theorem C5_base_results (N : Int) (h : N ≤ 0) :
    count_tokens_up_to_N N "R1" = .ok ([], []) ∧
    count_tokens_up_to_N 1 "R1" = .ok ([("um", 1)], []) := by
  constructor
  · unfold count_tokens_up_to_N
    rw [if_neg (show ¬("R1" ≠ "R1") by simp), if_pos h]
  · rfl

/-- Witness for C5 at N = -3. -/
theorem C5_base_results_witness :
    count_tokens_up_to_N (-3) "R1" = .ok ([], []) ∧
    count_tokens_up_to_N 1 "R1" = .ok ([("um", 1)], []) :=
  C5_base_results (-3) (by norm_num)

end PTEF
